import Mathlib

/-! Verification development for an embedded inference runtime: the `Module`
facade (runtime/executor module header) and the XNNPACK delegate executor
`XNNExecutor` (backends/xnnpack/runtime/XNNExecutor.h).

The C++ sources are shallowly embedded: machine integers that are only
compared (external ids, data pointers, dimension sizes) become `Nat`,
fatal assertions (ET_CHECK / ET_CHECK_MSG) become `none` / an `Option`
result, and the `Error`-returning discipline is kept as an explicit
`Error` value.  Calls into collaborators whose bodies are not part of
the embedded sources (`set_external_input`, `resize_tensor`,
`Module::execute`, the native XNNPACK runtime, the profiler) are either
function parameters or definitions marked `Modelled from the spec:`.
-/

namespace ETProof

/-- Error codes of the runtime (runtime/core/error.h), restricted to the
kinds used by the embedded code. `Ok` means success. -/
inductive Error where
  | Ok
  | Internal
  | InvalidArgument
  | NotSupported
  | NotFound
  deriving DecidableEq, Repr

/-- Status codes of the native XNNPACK runtime (`xnn_status`). -/
inductive XnnStatus where
  | success
  | uninitialized
  | invalid_parameter
  | invalid_state
  | unsupported_parameter
  | unsupported_hardware
  | out_of_memory
  deriving DecidableEq, Repr

/-- A tensor view: logical sizes, a backing-storage capacity (in elements)
and the numeric value of its data pointer. -/
structure Tensor where
  sizes : List Nat
  capacity : Nat
  data : Nat
  deriving DecidableEq, Repr

/-- Embeds `Tensor::dim()`: the rank. -/
def Tensor.dim (t : Tensor) : Nat := t.sizes.length

/-- Embeds `Tensor::size(i)`: the i-th logical dimension. -/
def Tensor.size (t : Tensor) (i : Nat) : Nat := t.sizes.getD i 0

/-- Embeds `XNNShape { size_t num_dims; size_t dim[XNN_MAX_TENSOR_DIMS]; }`. -/
structure XNNShape where
  num_dims : Nat
  dim : List Nat
  deriving DecidableEq, Repr

def default_shape : XNNShape := { num_dims := 0, dim := [] }

def default_tensor : Tensor := { sizes := [], capacity := 0, data := 0 }

/-- One entry of `externals_`: `xnn_external_value { id, data }`
(the build without ENABLE_DYNAMIC_QUANTIZATION keeps no shape). -/
structure ExternalValue where
  id : Nat
  ptr : Nat
  deriving DecidableEq, Repr

/-- The state of `XNNExecutor`.  `runtime_` is the owned native runtime
handle (a `unique_ptr`, here the numeric handle or `none`). -/
structure XNNExecutor where
  runtime_ : Option Nat
  input_ids_ : List Nat
  output_ids_ : List Nat
  external_id_args_ : List Nat
  is_sorted_args_list_ : Bool
  externals_ : List ExternalValue
  deriving DecidableEq, Repr

/-- A default-constructed `XNNExecutor`. -/
def freshExecutor : XNNExecutor :=
  { runtime_ := none
    input_ids_ := []
    output_ids_ := []
    external_id_args_ := []
    is_sorted_args_list_ := false
    externals_ := [] }

/-- Embeds `XNNExecutor::append_arg(uint32_t id)`: push the id and clear the
dirty flag (`is_sorted_args_list_ = false`). -/
def XNNExecutor.append_arg (e : XNNExecutor) (id : Nat) : XNNExecutor :=
  { e with
    external_id_args_ := e.external_id_args_ ++ [id]
    is_sorted_args_list_ := false }

/-- Embeds `XNNExecutor::get_args_size()`. -/
def XNNExecutor.get_args_size (e : XNNExecutor) : Nat :=
  e.external_id_args_.length

/-- Embeds `XNNExecutor::get_arg_index(size_t i)`: lazily re-sort the id list if
the dirty flag is set, then `ET_CHECK_MSG(i < size)` (a fatal assertion,
embedded as `none`) and return the i-th sorted id together with the
updated executor state (`std::sort` is embedded as an insertion sort in
ascending order). -/
def XNNExecutor.get_arg_index (e : XNNExecutor) (i : Nat) :
    Option (Nat × XNNExecutor) :=
  let e2 :=
    if e.is_sorted_args_list_ then e
    else
      { e with
        external_id_args_ := List.insertionSort (· ≤ ·) e.external_id_args_
        is_sorted_args_list_ := true }
  let ret := e2.external_id_args_.length
  if i < ret then some (e2.external_id_args_.getD i 0, e2) else none

/-- Embeds `XNNExecutor::initialize(xnn_runtime_t runtime)`: replace the owned
`unique_ptr` (deleting the previously owned handle, if any, exactly as
`unique_ptr` assignment does), then `ET_CHECK_MSG` that the profiler
initialized (`none` embeds the fatal assertion).  The second component
is the list of handles released via `xnn_delete_runtime` by this call. -/
def XNNExecutor.initRuntime (e : XNNExecutor) (runtime : Nat)
    (profInitErr : Error) : Option XNNExecutor × List Nat :=
  let deleted :=
    match e.runtime_ with
    | some h => [h]
    | none => []
  let e2 := { e with runtime_ := some runtime }
  if profInitErr ≠ Error.Ok then (none, deleted)
  else (some e2, deleted)

/-- Destruction of an `XNNExecutor`: the `unique_ptr` member releases the
owned handle via `xnn_delete_runtime`; the result is the list of handles
released. -/
def XNNExecutor.destroy (e : XNNExecutor) : List Nat :=
  match e.runtime_ with
  | some h => [h]
  | none => []

/-- Replaying a sequence of successful `initialize` calls (each with a
profiler that initializes fine), collecting every handle released via
`xnn_delete_runtime` along the way. -/
def runInitSeq (e : XNNExecutor) : List Nat → XNNExecutor × List Nat
  | [] => (e, [])
  | h :: rest =>
    match e.initRuntime h Error.Ok with
    | (some e2, del) =>
      let s := runInitSeq e2 rest
      (s.1, del ++ s.2)
    | (none, del) => (e, del)

/-- The input-binding loop of `set_inputs`: for each (id, tensor, shape)
triple call `set_external_input` (passed as the parameter `sei`, since
its body lives outside the embedded sources); any non-`Ok` result is
mapped to `Internal` by `ET_CHECK_OR_RETURN_ERROR(err == Error::Ok,
Internal, ...)`. -/
def bindInputsLoop
    (sei : Nat → Tensor → XNNShape → List ExternalValue →
      Error × List ExternalValue) :
    List (Nat × Tensor × XNNShape) → List ExternalValue →
      Error × List ExternalValue
  | [], ex => (Error.Ok, ex)
  | (id, t, s) :: rest, ex =>
    let r := sei id t s ex
    if r.1 = Error.Ok then bindInputsLoop sei rest r.2
    else (Error.Internal, r.2)

/-- Embeds `XNNExecutor::set_inputs(inputs, outputs, input_shapes,
output_shapes)`: clear `externals_`, check the input count
(`InvalidArgument` on mismatch), bind every input via
`set_external_input` (parameter `sei`; failure becomes `Internal`),
check the output count (`InvalidArgument` on mismatch), then append one
`xnn_external_value {output_ids_[i], outputs[i]->mutable_data_ptr()}`
per output and return `Ok`. -/
def XNNExecutor.set_inputs
    (sei : Nat → Tensor → XNNShape → List ExternalValue →
      Error × List ExternalValue)
    (e : XNNExecutor) (inputs outputs : List Tensor)
    (input_shapes output_shapes : List XNNShape) : Error × XNNExecutor :=
  let e0 := { e with externals_ := ([] : List ExternalValue) }
  if inputs.length ≠ e0.input_ids_.length then (Error.InvalidArgument, e0)
  else
    let triples := (List.range inputs.length).map (fun i =>
      (e0.input_ids_.getD i 0, inputs.getD i default_tensor,
        input_shapes.getD i default_shape))
    let r := bindInputsLoop sei triples e0.externals_
    if r.1 ≠ Error.Ok then (r.1, { e0 with externals_ := r.2 })
    else
      let e1 := { e0 with externals_ := r.2 }
      if outputs.length ≠ e1.output_ids_.length then
        (Error.InvalidArgument, e1)
      else
        let outBinds := (List.range outputs.length).map (fun i =>
          { id := e1.output_ids_.getD i 0
            ptr := (outputs.getD i default_tensor).data : ExternalValue })
        (Error.Ok, { e1 with externals_ := e1.externals_ ++ outBinds })

/-- Modelled from the spec: `XNNExecutor::set_external_input(id, input,
shape)` (declared in the embedded header, body elsewhere) binds the
tensor's data pointer and declared shape to its external id by appending
to `externals_`; a shape-rank mismatch at this step is rejected. -/
def set_external_input_model (id : Nat) (input : Tensor) (shape : XNNShape)
    (ex : List ExternalValue) : Error × List ExternalValue :=
  if input.dim ≠ shape.num_dims then (Error.InvalidArgument, ex)
  else (Error.Ok, ex ++ [{ id := id, ptr := input.data }])

/-- The observable steps of `XNNExecutor::forward`, in execution order. -/
inductive FwdEvent where
  | setupRuntime
  | profilerStart
  | logProfStartFail
  | invokeRuntime
  | profilerEnd
  | logProfEndFail
  deriving DecidableEq, Repr

/-- Embeds `XNNExecutor::forward(context)`: check the native handle exists
(`Internal` otherwise), `xnn_setup_runtime` (non-success becomes
`Internal`), start the profiler (a failure is only logged),
`xnn_invoke_runtime`, stop the profiler (a failure is only logged), and
map a non-success invoke status to `Internal`.  The native statuses and
the profiler results are parameters (they come from collaborators); the
second component is the trace of executed steps. -/
def XNNExecutor.forward (e : XNNExecutor)
    (setupStatus invokeStatus : XnnStatus)
    (profStartErr profEndErr : Error) : Error × List FwdEvent :=
  match e.runtime_ with
  | none => (Error.Internal, [])
  | some _ =>
    let tr := [FwdEvent.setupRuntime]
    if setupStatus ≠ XnnStatus.success then (Error.Internal, tr)
    else
      let tr := tr ++ [FwdEvent.profilerStart]
      let tr := if profStartErr ≠ Error.Ok
        then tr ++ [FwdEvent.logProfStartFail] else tr
      let tr := tr ++ [FwdEvent.invokeRuntime]
      let tr := tr ++ [FwdEvent.profilerEnd]
      let tr := if profEndErr ≠ Error.Ok
        then tr ++ [FwdEvent.logProfEndFail] else tr
      if invokeStatus ≠ XnnStatus.success then (Error.Internal, tr)
      else (Error.Ok, tr)

/-- Embeds `XNNExecutor::resizeOutput(output_tensor, output_shape)`: reject a
rank change with `NotSupported`; if every dimension already matches,
return `Ok` without resizing; otherwise call the tensor collaborator
`resize_tensor` (a parameter, since its body lives outside the embedded
sources) on the first `num_dims` native-reported dimensions.  The third
component records whether `resize_tensor` was invoked. -/
def XNNExecutor.resizeOutput
    (resize_tensor : Tensor → List Nat → Error × Tensor)
    (output_tensor : Tensor) (output_shape : XNNShape) :
    Error × Tensor × Bool :=
  let n_dim := output_tensor.dim
  if n_dim ≠ output_shape.num_dims then
    (Error.NotSupported, output_tensor, false)
  else
    let same_shape := (List.range n_dim).all
      (fun i => output_tensor.size i == output_shape.dim.getD i 0)
    if same_shape then (Error.Ok, output_tensor, false)
    else
      let output_size := (List.range n_dim).map
        (fun i => output_shape.dim.getD i 0)
      let r := resize_tensor output_tensor output_size
      (r.1, r.2, true)

/-- Modelled from the spec: the tensor collaborator `resize_tensor`
(invoked by `resizeOutput`, implemented outside the embedded sources)
mutates the logical shape in place and must not exceed the tensor's
backing-storage capacity. -/
def resize_tensor_model (t : Tensor) (new_sizes : List Nat) :
    Error × Tensor :=
  if new_sizes.foldl (fun a b => a * b) 1 ≤ t.capacity then
    (Error.Ok, { t with sizes := new_sizes })
  else (Error.Internal, t)

/-- Replaying a sequence of `append_arg` calls. -/
def appendArgs (e : XNNExecutor) (ids : List Nat) : XNNExecutor :=
  ids.foldl XNNExecutor.append_arg e

/-- A concrete tensor used to evaluate theorems on concrete inputs. -/
def tenW : Tensor := { sizes := [2, 3], capacity := 100, data := 7 }

/-- A concrete executor with a compiled runtime handle, one declared
input id and two declared output ids. -/
def exeW : XNNExecutor :=
  { runtime_ := some 11
    input_ids_ := [4]
    output_ids_ := [2, 6]
    external_id_args_ := []
    is_sorted_args_list_ := false
    externals_ := [{ id := 9, ptr := 9 }] }

/-- A concrete executor with one declared input id and zero declared
output ids. -/
def exeCex : XNNExecutor :=
  { runtime_ := none
    input_ids_ := [7]
    output_ids_ := []
    external_id_args_ := []
    is_sorted_args_list_ := false
    externals_ := [{ id := 9, ptr := 9 }] }

/-- A per-input binding function that always succeeds, appending one
binding per input (used to evaluate theorems whose hypotheses require
every per-input binding to succeed). -/
def seiOk (id : Nat) (input : Tensor) (shape : XNNShape)
    (ex : List ExternalValue) : Error × List ExternalValue :=
  (Error.Ok, ex ++ [{ id := id, ptr := input.data }])

/-- The unit of method input/output (`EValue`), kept abstract as a
wrapped number. -/
structure EValue where
  val : Nat
  deriving DecidableEq, Repr

/-- The `Module` facade.  `execute_` stands for
`Module::execute(method_name, input)`, whose body lives outside the
embedded header; `get` and `forward` are defined in the header on top of
it. -/
structure Module where
  execute_ : String → List EValue → Except Error (List EValue)

/-- Embeds `Module::execute(method_name, input)`. -/
def Module.execute (m : Module) (method_name : String)
    (input : List EValue) : Except Error (List EValue) :=
  m.execute_ method_name input

/-- Embeds `Module::get(method_name, input)`: `ET_UNWRAP(execute(...))`
propagates an error; an empty output vector becomes
`Error::InvalidArgument`; otherwise `result[0]` is returned. -/
def Module.get (m : Module) (method_name : String) (input : List EValue) :
    Except Error EValue :=
  match m.execute method_name input with
  | Except.error err => Except.error err
  | Except.ok result =>
    match result with
    | [] => Except.error Error.InvalidArgument
    | x :: _ => Except.ok x

/-- Embeds `Module::forward(input)`: `return execute("forward", input);`. -/
def Module.forward (m : Module) (input : List EValue) :
    Except Error (List EValue) :=
  m.execute "forward" input

/-- A concrete `Module` used to evaluate the `Module` theorems on
concrete inputs: one method with zero outputs, one failing method, and
all other methods returning two outputs. -/
def sampleModule : Module :=
  { execute_ := fun method_name input =>
      if method_name = "zero" then Except.ok []
      else if method_name = "broken" then Except.error Error.NotFound
      else Except.ok ({ val := input.length + 40 } :: [{ val := 0 }]) }

/-- C6: `Module::get(name, inputs)` returns `InvalidArgument` when
`execute(name, inputs)` succeeds with an empty output sequence; with
`k ≥ 1` outputs it returns exactly the first output of `execute`; when
`execute` fails, `get` propagates that same error. -/
theorem C6_get_first_output (m : Module) (method_name : String)
    (input : List EValue) :
    (m.execute method_name input = Except.ok [] →
      m.get method_name input = Except.error Error.InvalidArgument)
    ∧ (∀ (x : EValue) (xs : List EValue),
        m.execute method_name input = Except.ok (x :: xs) →
        m.get method_name input = Except.ok x)
    ∧ (∀ err : Error,
        m.execute method_name input = Except.error err →
        m.get method_name input = Except.error err) := by
  refine ⟨fun h => ?_, fun x xs h => ?_, fun err h => ?_⟩ <;>
    simp [Module.get, h]

/-- C6 witness: the three branches of `C6_get_first_output` evaluated on
`sampleModule` at concrete method names and inputs. -/
theorem C6_get_first_output_witness :
    sampleModule.get "zero" [] = Except.error Error.InvalidArgument
    ∧ sampleModule.get "forward" [{ val := 2 }] = Except.ok { val := 41 }
    ∧ sampleModule.get "broken" [] = Except.error Error.NotFound :=
  ⟨(C6_get_first_output sampleModule "zero" []).1 rfl,
   (C6_get_first_output sampleModule "forward" [{ val := 2 }]).2.1
     { val := 41 } [{ val := 0 }] rfl,
   (C6_get_first_output sampleModule "broken" []).2.2 Error.NotFound rfl⟩

/-- On a state whose sorted-view flag is clear, `append_arg` calls just
accumulate the ids and leave the flag clear. -/
lemma appendArgs_unsorted :
    ∀ (ids : List Nat) (e : XNNExecutor), e.is_sorted_args_list_ = false →
      appendArgs e ids =
        { e with external_id_args_ := e.external_id_args_ ++ ids }
  | [], e, _ => by simp [appendArgs]
  | id :: rest, e, he => by
    have ih := appendArgs_unsorted rest (e.append_arg id) rfl
    obtain ⟨rt, ii, oi, args, flag, ext⟩ := e
    cases he
    simpa [appendArgs, XNNExecutor.append_arg] using ih

/-- On a state whose sorted-view flag is clear and for an in-range
index, `get_arg_index` recomputes the sorted view of the current id list
and returns its i-th element. -/
lemma get_arg_index_unsorted (e : XNNExecutor) (i : Nat)
    (he : e.is_sorted_args_list_ = false)
    (hi : i < e.external_id_args_.length) :
    e.get_arg_index i =
      some ((List.insertionSort (· ≤ ·) e.external_id_args_).getD i 0,
        { e with
          external_id_args_ :=
            List.insertionSort (· ≤ ·) e.external_id_args_
          is_sorted_args_list_ := true }) := by
  have hlen : (List.insertionSort (· ≤ ·) e.external_id_args_).length
      = e.external_id_args_.length :=
    (List.perm_insertionSort (· ≤ ·) e.external_id_args_).length_eq
  simp [XNNExecutor.get_arg_index, he, hlen, hi]

/-- The sorted view of a list of ids is the unique ascending-sorted
permutation of those ids. -/
lemma insertionSort_eq_of_perm_sorted (ids l : List Nat)
    (hperm : l.Perm ids) (hsorted : l.Sorted (· ≤ ·)) :
    List.insertionSort (· ≤ ·) ids = l :=
  List.eq_of_perm_of_sorted
    ((List.perm_insertionSort (· ≤ ·) ids).trans hperm.symm)
    (List.sorted_insertionSort (· ≤ ·) ids) hsorted

/-- C1: after any sequence of `append_arg(id)` calls on a fresh
executor, `get_arg_index i` with `i` below the number of registered ids
returns the i-th id in ascending numeric order (`l` is the sorted
permutation of the appended ids), regardless of the append order;
moreover any `append_arg` clears the cached-sorted-view flag, and a
`get_arg_index` call on a state with a clear flag recomputes the sorted
view from the current id list. -/
theorem C1_sorted_external_id_lookup (ids l : List Nat)
    (hperm : l.Perm ids) (hsorted : l.Sorted (· ≤ ·))
    (i : Nat) (hi : i < ids.length) :
    ((appendArgs freshExecutor ids).get_arg_index i).map Prod.fst
      = some (l.getD i 0)
    ∧ (∀ (e : XNNExecutor) (id : Nat),
        (e.append_arg id).is_sorted_args_list_ = false)
    ∧ (∀ (e : XNNExecutor) (j : Nat), e.is_sorted_args_list_ = false →
        j < e.external_id_args_.length →
        (e.get_arg_index j).map Prod.fst =
          some ((List.insertionSort (· ≤ ·) e.external_id_args_).getD j 0)) := by
  refine ⟨?_, fun e id => rfl, fun e j he hj => ?_⟩
  · have hE : appendArgs freshExecutor ids =
        { freshExecutor with external_id_args_ := ids } := by
      simpa using appendArgs_unsorted ids freshExecutor rfl
    rw [hE]
    rw [get_arg_index_unsorted _ i rfl (by simpa [freshExecutor] using hi)]
    simp [freshExecutor, insertionSort_eq_of_perm_sorted ids l hperm hsorted]
  · rw [get_arg_index_unsorted e j he hj]
    simp

/-- C1 witness: appending {5, 1, 3} and reading back indices 0, 1, 2
yields 1, 3, 5, and the flag/recomputation facts hold. -/
theorem C1_sorted_external_id_lookup_witness :
    ((appendArgs freshExecutor [5, 1, 3]).get_arg_index 0).map Prod.fst
      = some (([1, 3, 5] : List Nat).getD 0 0)
    ∧ ((appendArgs freshExecutor [5, 1, 3]).get_arg_index 1).map Prod.fst
      = some (([1, 3, 5] : List Nat).getD 1 0)
    ∧ ((appendArgs freshExecutor [5, 1, 3]).get_arg_index 2).map Prod.fst
      = some (([1, 3, 5] : List Nat).getD 2 0) :=
  ⟨(C1_sorted_external_id_lookup [5, 1, 3] [1, 3, 5] (by decide) (by decide)
      0 (by decide)).1,
   (C1_sorted_external_id_lookup [5, 1, 3] [1, 3, 5] (by decide) (by decide)
      1 (by decide)).1,
   (C1_sorted_external_id_lookup [5, 1, 3] [1, 3, 5] (by decide) (by decide)
      2 (by decide)).1⟩

/-- C8: `get_arg_index i` with `i ≥` the number of registered ids hits
the fatal assertion (embedded as `none`, a process abort, not a
recoverable error); with `i` in range it never aborts and the returned
value is one of the registered ids. -/
theorem C8_out_of_range_is_fatal (e : XNNExecutor) (i : Nat) :
    (e.get_args_size ≤ i → e.get_arg_index i = none)
    ∧ (i < e.get_args_size →
        ∃ r e2, e.get_arg_index i = some (r, e2)
          ∧ r ∈ e.external_id_args_) := by
  have hlen : (List.insertionSort (· ≤ ·) e.external_id_args_).length
      = e.external_id_args_.length :=
    (List.perm_insertionSort (· ≤ ·) e.external_id_args_).length_eq
  have hsz : e.get_args_size = e.external_id_args_.length := rfl
  constructor
  · intro hge
    rw [hsz] at hge
    cases hf : e.is_sorted_args_list_ <;>
      simp [XNNExecutor.get_arg_index, hf, hlen, Nat.not_lt.mpr hge]
  · intro hlt
    rw [hsz] at hlt
    cases hf : e.is_sorted_args_list_
    · refine ⟨(List.insertionSort (· ≤ ·) e.external_id_args_).getD i 0, _,
        get_arg_index_unsorted e i hf hlt, ?_⟩
      have hi2 : i < (List.insertionSort (· ≤ ·) e.external_id_args_).length := by
        rw [hlen]; exact hlt
      rw [List.getD_eq_get _ _ hi2]
      exact (List.perm_insertionSort (· ≤ ·) e.external_id_args_).mem_iff.mp
        (List.get_mem _ i hi2)
    · refine ⟨e.external_id_args_.getD i 0, e, ?_, ?_⟩
      · simp [XNNExecutor.get_arg_index, hf, hlt]
      · rw [List.getD_eq_get _ _ hlt]
        exact List.get_mem _ i hlt

/-- C8 witness: on an executor with registered ids {5, 1, 3}, index 3 is
out of range and aborts, index 1 is in range and returns a registered
id. -/
theorem C8_out_of_range_is_fatal_witness :
    ((appendArgs freshExecutor [5, 1, 3]).get_arg_index 3 = none)
    ∧ (∃ r e2,
        (appendArgs freshExecutor [5, 1, 3]).get_arg_index 1 = some (r, e2)
          ∧ r ∈ (appendArgs freshExecutor [5, 1, 3]).external_id_args_) :=
  ⟨(C8_out_of_range_is_fatal (appendArgs freshExecutor [5, 1, 3]) 3).1
      (by decide),
   (C8_out_of_range_is_fatal (appendArgs freshExecutor [5, 1, 3]) 1).2
      (by decide)⟩

/-- C7: `Module::forward(input)` returns exactly the same result as
`Module::execute("forward", input)`; in particular `forward([])` agrees
with `execute("forward", [])`. -/
theorem C7_forward_is_execute (m : Module) (input : List EValue) :
    m.forward input = m.execute "forward" input
    ∧ m.forward [] = m.execute "forward" [] :=
  ⟨rfl, rfl⟩

/-- The spec-modelled `resize_tensor` satisfies the collaborator
contract: on success the tensor's sizes become the requested ones. -/
lemma resize_tensor_model_sets_sizes (t : Tensor) (ns : List Nat) :
    (resize_tensor_model t ns).1 = Error.Ok →
    ((resize_tensor_model t ns).2).sizes = ns := by
  intro h
  by_cases hc : ns.foldl (fun a b => a * b) 1 ≤ t.capacity
  · simp [resize_tensor_model, hc]
  · simp [resize_tensor_model, hc] at h

/-- C2: `resizeOutput` on a tensor of rank `r` fails with `NotSupported`
whenever the native-reported shape's rank differs from `r`; with equal
ranks and all dimensions already matching it returns `Ok` without
invoking the resize operation; with equal ranks and a differing
dimension it invokes the tensor collaborator's resize operation
(assumed, as the collaborator contract `hrt`, to set the sizes it is
given), so that on success the tensor's reported shape equals the
target shape. -/
theorem C2_resize_rank_invariant
    (rt : Tensor → List Nat → Error × Tensor)
    (hrt : ∀ t ns, (rt t ns).1 = Error.Ok → ((rt t ns).2).sizes = ns)
    (t : Tensor) (s : XNNShape) :
    (t.dim ≠ s.num_dims →
      XNNExecutor.resizeOutput rt t s = (Error.NotSupported, t, false))
    ∧ (t.dim = s.num_dims →
      (∀ i, i < t.dim → t.size i = s.dim.getD i 0) →
      XNNExecutor.resizeOutput rt t s = (Error.Ok, t, false))
    ∧ (t.dim = s.num_dims →
      (∃ i, i < t.dim ∧ t.size i ≠ s.dim.getD i 0) →
      (XNNExecutor.resizeOutput rt t s).1 = Error.Ok →
      ((XNNExecutor.resizeOutput rt t s).2.1.sizes
          = (List.range t.dim).map (fun i => s.dim.getD i 0)
        ∧ (XNNExecutor.resizeOutput rt t s).2.2 = true)) := by
  refine ⟨fun hne => ?_, fun hr hall => ?_, fun hr hex hok => ?_⟩
  · simp [XNNExecutor.resizeOutput, hne]
  · have hcond : ¬t.dim ≠ s.num_dims := by simp [hr]
    have hss : ((List.range t.dim).all
        (fun i => t.size i == s.dim.getD i 0)) = true := by
      rw [List.all_eq_true]
      intro i hi
      rw [List.mem_range] at hi
      exact beq_iff_eq.mpr (hall i hi)
    simp only [XNNExecutor.resizeOutput, if_neg hcond, hss]
    simp
  · have hcond : ¬t.dim ≠ s.num_dims := by simp [hr]
    have hss : ((List.range t.dim).all
        (fun i => t.size i == s.dim.getD i 0)) = false := by
      obtain ⟨i, hi, hne⟩ := hex
      rw [List.all_eq_false]
      refine ⟨i, List.mem_range.mpr hi, fun hcontra => ?_⟩
      exact hne (beq_iff_eq.mp hcontra)
    have hred : XNNExecutor.resizeOutput rt t s
        = ((rt t ((List.range t.dim).map (fun i => s.dim.getD i 0))).1,
           (rt t ((List.range t.dim).map (fun i => s.dim.getD i 0))).2,
           true) := by
      simp only [XNNExecutor.resizeOutput, if_neg hcond, hss]
      simp
    rw [hred] at hok ⊢
    exact ⟨hrt t _ hok, rfl⟩

/-- C2 witness: on the rank-2 tensor `tenW` (sizes [2, 3]), a rank-3
target fails with `NotSupported`; the identical target [2, 3] is an
`Ok` no-op; the differing target [4, 3] succeeds with the sizes set to
[4, 3] via the resize collaborator. -/
theorem C2_resize_rank_invariant_witness :
    XNNExecutor.resizeOutput resize_tensor_model tenW
        { num_dims := 3, dim := [9, 9, 9] }
      = (Error.NotSupported, tenW, false)
    ∧ XNNExecutor.resizeOutput resize_tensor_model tenW
        { num_dims := 2, dim := [2, 3] }
      = (Error.Ok, tenW, false)
    ∧ ((XNNExecutor.resizeOutput resize_tensor_model tenW
          { num_dims := 2, dim := [4, 3] }).2.1.sizes
        = (List.range tenW.dim).map
            (fun i => ({ num_dims := 2, dim := [4, 3] } : XNNShape).dim.getD i 0)
      ∧ (XNNExecutor.resizeOutput resize_tensor_model tenW
          { num_dims := 2, dim := [4, 3] }).2.2 = true) :=
  ⟨(C2_resize_rank_invariant resize_tensor_model resize_tensor_model_sets_sizes
      tenW { num_dims := 3, dim := [9, 9, 9] }).1 (by decide),
   (C2_resize_rank_invariant resize_tensor_model resize_tensor_model_sets_sizes
      tenW { num_dims := 2, dim := [2, 3] }).2.1 (by decide)
      (by
        intro i hi
        have h2 : i < 2 := hi
        interval_cases i <;> rfl),
   (C2_resize_rank_invariant resize_tensor_model resize_tensor_model_sets_sizes
      tenW { num_dims := 2, dim := [4, 3] }).2.2 (by decide)
      ⟨0, by decide, by decide⟩ (by decide)⟩

/-- If every call of the per-input binding function succeeds, the
input-binding loop succeeds. -/
lemma bindInputsLoop_all_ok
    (sei : Nat → Tensor → XNNShape → List ExternalValue →
      Error × List ExternalValue)
    (hsei : ∀ id t s ex, (sei id t s ex).1 = Error.Ok) :
    ∀ (triples : List (Nat × Tensor × XNNShape)) (ex : List ExternalValue),
      (bindInputsLoop sei triples ex).1 = Error.Ok
  | [], _ => rfl
  | (id, t, s) :: rest, ex => by
    have ih := bindInputsLoop_all_ok sei hsei rest (sei id t s ex).2
    simp [bindInputsLoop, hsei id t s ex, ih]

/-- Running the input-binding loop with the spec-modelled
`set_external_input` on rank-consistent triples appends exactly one
(id, data-pointer) binding per input, in order. -/
lemma bindInputsLoop_model :
    ∀ (triples : List (Nat × Tensor × XNNShape)) (ex : List ExternalValue),
      (∀ p ∈ triples, (p.2.1).dim = (p.2.2).num_dims) →
      bindInputsLoop set_external_input_model triples ex
        = (Error.Ok, ex ++ triples.map (fun p =>
            { id := p.1, ptr := (p.2.1).data }))
  | [], ex, _ => by simp [bindInputsLoop]
  | (id, t, s) :: rest, ex, h => by
    have hts : t.dim = s.num_dims := h (id, t, s) (List.mem_cons_self _ _)
    have ih := bindInputsLoop_model rest
      (ex ++ [{ id := id, ptr := t.data }])
      (fun p hp => h p (List.mem_cons_of_mem _ hp))
    simp [bindInputsLoop, set_external_input_model, hts, ih]

/-- C3 (amended): `set_inputs` first clears the binding table (its
result does not depend on the prior `externals_`); it fails with
`InvalidArgument` whenever `inputs.size()` differs from the declared
input count; when the input count matches and every per-input binding
succeeds, it fails with `InvalidArgument` whenever `outputs.size()`
differs from the declared output count; and when both counts match and
every per-input binding succeeds it returns success. -/
theorem C3_set_inputs_validation
    (sei : Nat → Tensor → XNNShape → List ExternalValue →
      Error × List ExternalValue)
    (e : XNNExecutor) (inputs outputs : List Tensor)
    (input_shapes output_shapes : List XNNShape) :
    (XNNExecutor.set_inputs sei e inputs outputs input_shapes output_shapes
      = XNNExecutor.set_inputs sei { e with externals_ := [] } inputs
          outputs input_shapes output_shapes)
    ∧ (inputs.length ≠ e.input_ids_.length →
        (XNNExecutor.set_inputs sei e inputs outputs input_shapes
          output_shapes).1 = Error.InvalidArgument)
    ∧ ((∀ id t s ex, (sei id t s ex).1 = Error.Ok) →
        inputs.length = e.input_ids_.length →
        outputs.length ≠ e.output_ids_.length →
        (XNNExecutor.set_inputs sei e inputs outputs input_shapes
          output_shapes).1 = Error.InvalidArgument)
    ∧ ((∀ id t s ex, (sei id t s ex).1 = Error.Ok) →
        inputs.length = e.input_ids_.length →
        outputs.length = e.output_ids_.length →
        (XNNExecutor.set_inputs sei e inputs outputs input_shapes
          output_shapes).1 = Error.Ok) := by
  refine ⟨rfl, fun hin => ?_, fun hsei hin hout => ?_,
    fun hsei hin hout => ?_⟩
  · simp [XNNExecutor.set_inputs, hin]
  · have hok := bindInputsLoop_all_ok sei hsei
      ((List.range inputs.length).map (fun i =>
        (e.input_ids_.getD i 0, inputs.getD i default_tensor,
          input_shapes.getD i default_shape))) []
    simp [hin] at hok
    simp [XNNExecutor.set_inputs, hin, hok, hout]
  · have hok := bindInputsLoop_all_ok sei hsei
      ((List.range inputs.length).map (fun i =>
        (e.input_ids_.getD i 0, inputs.getD i default_tensor,
          input_shapes.getD i default_shape))) []
    simp [hin] at hok
    simp [XNNExecutor.set_inputs, hin, hok, hout]

/-- C3 witness: on the executor `exeW` (1 declared input, 2 declared
outputs) with an always-succeeding per-input binding: zero inputs is
`InvalidArgument`, one input with one output is `InvalidArgument`, one
input with two outputs is `Ok`. -/
theorem C3_set_inputs_validation_witness :
    (XNNExecutor.set_inputs seiOk exeW [] [tenW] [] []).1
      = Error.InvalidArgument
    ∧ (XNNExecutor.set_inputs seiOk exeW [tenW] [tenW]
        [default_shape] []).1 = Error.InvalidArgument
    ∧ (XNNExecutor.set_inputs seiOk exeW [tenW] [tenW, tenW]
        [default_shape] []).1 = Error.Ok :=
  ⟨(C3_set_inputs_validation seiOk exeW [] [tenW] [] []).2.1 (by decide),
   (C3_set_inputs_validation seiOk exeW [tenW] [tenW]
      [default_shape] []).2.2.1 (fun id t s ex => rfl) (by decide)
      (by decide),
   (C3_set_inputs_validation seiOk exeW [tenW] [tenW, tenW]
      [default_shape] []).2.2.2 (fun id t s ex => rfl) (by decide)
      (by decide)⟩

/-- C3 counterexample to the claim as stated: on `exeCex` (1 declared
input, 0 declared outputs), with the spec-modelled per-input binding
failing on a rank mismatch, `outputs.size()` (1) differs from the
declared output count (0), yet `set_inputs` returns `Internal`, not
`InvalidArgument`: the per-input binding failure is detected before the
output-count check. -/
theorem C3_set_inputs_validation_counterexample :
    (([tenW] : List Tensor).length ≠ exeCex.output_ids_.length)
    ∧ (XNNExecutor.set_inputs set_external_input_model exeCex
        [tenW] [tenW] [{ num_dims := 3, dim := [1, 1, 1] }] []).1
      = Error.Internal
    ∧ Error.Internal ≠ Error.InvalidArgument := by decide

/-- C9: `set_inputs` is not atomic on error: an input-count mismatch
leaves the binding table empty; an output-count mismatch (checked only
after all inputs are bound, here with the spec-modelled
`set_external_input`) fails while leaving the table holding exactly the
new input bindings and no output bindings; and the result never depends
on the prior call's bindings. -/
theorem C9_set_inputs_not_atomic (e : XNNExecutor)
    (inputs outputs : List Tensor)
    (input_shapes output_shapes : List XNNShape) :
    (inputs.length ≠ e.input_ids_.length →
      (XNNExecutor.set_inputs set_external_input_model e inputs outputs
        input_shapes output_shapes).2.externals_ = [])
    ∧ ((∀ i, i < inputs.length →
          (inputs.getD i default_tensor).dim
            = (input_shapes.getD i default_shape).num_dims) →
        inputs.length = e.input_ids_.length →
        outputs.length ≠ e.output_ids_.length →
        (XNNExecutor.set_inputs set_external_input_model e inputs outputs
            input_shapes output_shapes).1 = Error.InvalidArgument
          ∧ (XNNExecutor.set_inputs set_external_input_model e inputs
              outputs input_shapes output_shapes).2.externals_
            = (List.range inputs.length).map (fun i =>
                { id := e.input_ids_.getD i 0
                  ptr := (inputs.getD i default_tensor).data }))
    ∧ (∀ sei, XNNExecutor.set_inputs sei e inputs outputs input_shapes
          output_shapes
        = XNNExecutor.set_inputs sei { e with externals_ := [] } inputs
            outputs input_shapes output_shapes) := by
  refine ⟨fun hin => ?_, fun hranks hin hout => ?_, fun sei => rfl⟩
  · simp [XNNExecutor.set_inputs, hin]
  · have htr : ∀ p ∈ (List.range inputs.length).map (fun i =>
        (e.input_ids_.getD i 0, inputs.getD i default_tensor,
          input_shapes.getD i default_shape)),
        (p.2.1).dim = (p.2.2).num_dims := by
      intro p hp
      rw [List.mem_map] at hp
      obtain ⟨i, hi, hpe⟩ := hp
      rw [List.mem_range] at hi
      subst hpe
      exact hranks i hi
    have hbind := bindInputsLoop_model
      ((List.range inputs.length).map (fun i =>
        (e.input_ids_.getD i 0, inputs.getD i default_tensor,
          input_shapes.getD i default_shape))) [] htr
    simp [hin, List.map_map, Function.comp] at hbind
    constructor <;>
      simp [XNNExecutor.set_inputs, hin, hout, hbind, List.map_map,
        Function.comp]

/-- C9 witness: on `exeCex` (prior binding table nonempty, 1 declared
input, 0 declared outputs): an input-count mismatch leaves the table
empty; a matching input with a mismatched output count leaves exactly
the one new input binding; and the result ignores prior bindings. -/
theorem C9_set_inputs_not_atomic_witness :
    ((XNNExecutor.set_inputs set_external_input_model exeCex [] []
        [] []).2.externals_ = [])
    ∧ ((XNNExecutor.set_inputs set_external_input_model exeCex [tenW]
          [tenW] [{ num_dims := 2, dim := [5, 5] }] []).1
        = Error.InvalidArgument
      ∧ (XNNExecutor.set_inputs set_external_input_model exeCex [tenW]
          [tenW] [{ num_dims := 2, dim := [5, 5] }] []).2.externals_
        = (List.range ([tenW] : List Tensor).length).map (fun i =>
            { id := exeCex.input_ids_.getD i 0
              ptr := (([tenW] : List Tensor).getD i default_tensor).data }))
    ∧ (∀ sei, XNNExecutor.set_inputs sei exeCex [] [] [] []
        = XNNExecutor.set_inputs sei { exeCex with externals_ := [] }
            [] [] [] []) :=
  ⟨(C9_set_inputs_not_atomic exeCex [] [] [] []).1 (by decide),
   (C9_set_inputs_not_atomic exeCex [tenW] [tenW]
      [{ num_dims := 2, dim := [5, 5] }] []).2.1
      (by
        intro i hi
        have h1 : i < 1 := hi
        interval_cases i
        · rfl)
      (by decide) (by decide),
   (C9_set_inputs_not_atomic exeCex [] [] [] []).2.2⟩

/-- C4: `forward` with an absent native runtime handle fails with
`Internal` without invoking the runtime; with a handle present it
returns `Ok` exactly when both the native setup status and the native
invocation status are success, and any other outcome is the `Internal`
error. -/
theorem C4_forward_status_mapping (e : XNNExecutor)
    (st1 st2 : XnnStatus) (p q : Error) :
    (e.runtime_ = none →
      XNNExecutor.forward e st1 st2 p q = (Error.Internal, [])
      ∧ FwdEvent.invokeRuntime ∉ (XNNExecutor.forward e st1 st2 p q).2)
    ∧ (e.runtime_ ≠ none →
      ((XNNExecutor.forward e st1 st2 p q).1 = Error.Ok ↔
        st1 = XnnStatus.success ∧ st2 = XnnStatus.success))
    ∧ ((XNNExecutor.forward e st1 st2 p q).1 = Error.Ok ∨
        (XNNExecutor.forward e st1 st2 p q).1 = Error.Internal) := by
  cases hrt : e.runtime_ with
  | none =>
    refine ⟨fun _ => ⟨?_, ?_⟩, fun hne => absurd rfl hne, ?_⟩ <;>
      simp [XNNExecutor.forward, hrt]
  | some h =>
    refine ⟨fun hn => Option.noConfusion hn, fun _ => ?_, ?_⟩ <;>
    · by_cases h1 : st1 = XnnStatus.success <;>
        by_cases h2 : st2 = XnnStatus.success <;>
        simp [XNNExecutor.forward, hrt, h1, h2]

/-- C4 witness: `forward` on an executor without a compiled handle is
`(Internal, [])`; on `exeW` (handle present) a failing invocation status
makes the success iff false on both sides, and the result is `Ok` or
`Internal`. -/
theorem C4_forward_status_mapping_witness :
    (XNNExecutor.forward exeCex XnnStatus.success XnnStatus.success
        Error.Ok Error.Ok = (Error.Internal, [])
      ∧ FwdEvent.invokeRuntime ∉ (XNNExecutor.forward exeCex
          XnnStatus.success XnnStatus.success Error.Ok Error.Ok).2)
    ∧ ((XNNExecutor.forward exeW XnnStatus.success XnnStatus.invalid_state
          Error.Ok Error.Ok).1 = Error.Ok ↔
        XnnStatus.success = XnnStatus.success
          ∧ XnnStatus.invalid_state = XnnStatus.success)
    ∧ ((XNNExecutor.forward exeW XnnStatus.success XnnStatus.invalid_state
          Error.Ok Error.Ok).1 = Error.Ok ∨
        (XNNExecutor.forward exeW XnnStatus.success XnnStatus.invalid_state
          Error.Ok Error.Ok).1 = Error.Internal) :=
  ⟨(C4_forward_status_mapping exeCex XnnStatus.success XnnStatus.success
      Error.Ok Error.Ok).1 rfl,
   (C4_forward_status_mapping exeW XnnStatus.success
      XnnStatus.invalid_state Error.Ok Error.Ok).2.1 (by decide),
   (C4_forward_status_mapping exeW XnnStatus.success
      XnnStatus.invalid_state Error.Ok Error.Ok).2.2⟩

/-- C5: whenever a `forward` execution reaches the native invocation,
the profiling start and stop events bracket it in the execution trace
(the stop runs even when the invocation fails), and the returned result
does not depend on the profiler start/stop outcomes: it is determined
solely by the native setup and invocation statuses. -/
theorem C5_profiling_best_effort (e : XNNExecutor)
    (st1 st2 : XnnStatus) (p q : Error) :
    (FwdEvent.invokeRuntime ∈ (XNNExecutor.forward e st1 st2 p q).2 →
      ∃ k1 k2 k3, k1 < k2 ∧ k2 < k3
        ∧ (XNNExecutor.forward e st1 st2 p q).2.getD k1
            FwdEvent.setupRuntime = FwdEvent.profilerStart
        ∧ (XNNExecutor.forward e st1 st2 p q).2.getD k2
            FwdEvent.setupRuntime = FwdEvent.invokeRuntime
        ∧ (XNNExecutor.forward e st1 st2 p q).2.getD k3
            FwdEvent.setupRuntime = FwdEvent.profilerEnd)
    ∧ (∀ p2 q2, (XNNExecutor.forward e st1 st2 p2 q2).1
        = (XNNExecutor.forward e st1 st2 p q).1) := by
  cases hrt : e.runtime_ with
  | none =>
    refine ⟨fun hmem => ?_, fun p2 q2 => ?_⟩
    · simp [XNNExecutor.forward, hrt] at hmem
    · simp [XNNExecutor.forward, hrt]
  | some h =>
    constructor
    · intro hmem
      by_cases h1 : st1 = XnnStatus.success
      · by_cases hp : p = Error.Ok
        · refine ⟨1, 2, 3, by decide, by decide, ?_, ?_, ?_⟩ <;>
            by_cases hq : q = Error.Ok <;>
            by_cases h2 : st2 = XnnStatus.success <;>
            simp [XNNExecutor.forward, hrt, h1, hp, hq, h2]
        · refine ⟨1, 3, 4, by decide, by decide, ?_, ?_, ?_⟩ <;>
            by_cases hq : q = Error.Ok <;>
            by_cases h2 : st2 = XnnStatus.success <;>
            simp [XNNExecutor.forward, hrt, h1, hp, hq, h2]
      · simp [XNNExecutor.forward, hrt, h1] at hmem
    · intro p2 q2
      by_cases h1 : st1 = XnnStatus.success <;>
        by_cases h2 : st2 = XnnStatus.success <;>
        simp [XNNExecutor.forward, hrt, h1, h2]

/-- C5 witness: on `exeW` with a failing invocation status and a failing
profiler start, the trace still brackets the invocation with profiler
start/stop, and the result ignores the profiler outcomes. -/
theorem C5_profiling_best_effort_witness :
    (∃ k1 k2 k3, k1 < k2 ∧ k2 < k3
      ∧ (XNNExecutor.forward exeW XnnStatus.success XnnStatus.invalid_state
          Error.Internal Error.Ok).2.getD k1 FwdEvent.setupRuntime
        = FwdEvent.profilerStart
      ∧ (XNNExecutor.forward exeW XnnStatus.success XnnStatus.invalid_state
          Error.Internal Error.Ok).2.getD k2 FwdEvent.setupRuntime
        = FwdEvent.invokeRuntime
      ∧ (XNNExecutor.forward exeW XnnStatus.success XnnStatus.invalid_state
          Error.Internal Error.Ok).2.getD k3 FwdEvent.setupRuntime
        = FwdEvent.profilerEnd)
    ∧ (∀ p2 q2, (XNNExecutor.forward exeW XnnStatus.success
          XnnStatus.invalid_state p2 q2).1
        = (XNNExecutor.forward exeW XnnStatus.success
            XnnStatus.invalid_state Error.Internal Error.Ok).1) :=
  ⟨(C5_profiling_best_effort exeW XnnStatus.success XnnStatus.invalid_state
      Error.Internal Error.Ok).1 (by decide),
   (C5_profiling_best_effort exeW XnnStatus.success XnnStatus.invalid_state
      Error.Internal Error.Ok).2⟩

/-- Over any sequence of successful `initialize` calls, the handles
released so far plus the handle released at destruction are exactly the
handle owned at the start plus every handle handed in: each handle is
released exactly once. -/
lemma runInitSeq_deletes :
    ∀ (hs : List Nat) (e : XNNExecutor),
      (runInitSeq e hs).2 ++ ((runInitSeq e hs).1).destroy
        = e.destroy ++ hs
  | [], e => by simp [runInitSeq]
  | h :: rest, e => by
    have ih := runInitSeq_deletes rest { e with runtime_ := some h }
    have hdes : ({ e with runtime_ := some h } : XNNExecutor).destroy
        = [h] := rfl
    rw [hdes] at ih
    have hred : runInitSeq e (h :: rest)
        = ((runInitSeq { e with runtime_ := some h } rest).1,
           e.destroy ++ (runInitSeq { e with runtime_ := some h } rest).2) := by
      simp [runInitSeq, XNNExecutor.initRuntime, XNNExecutor.destroy]
    rw [hred]
    simp only [List.append_assoc, ih]
    simp

/-- C10: `initialize` hits the fatal assertion (embedded as `none`)
whenever the profiler fails to initialize; on success the executor owns
the new runtime handle; and across any sequence of successful
`initialize` calls starting from a fresh executor and ending in
destruction, every handle handed in is released via the
runtime-deletion function exactly once (on replacement or on
destruction). -/
theorem C10_initialize_fatal_and_ownership (e : XNNExecutor)
    (runtime : Nat) (err : Error) (hs : List Nat) :
    (err ≠ Error.Ok → (e.initRuntime runtime err).1 = none)
    ∧ (err = Error.Ok → (e.initRuntime runtime err).1
        = some { e with runtime_ := some runtime })
    ∧ ((runInitSeq freshExecutor hs).2
        ++ ((runInitSeq freshExecutor hs).1).destroy = hs) := by
  refine ⟨fun hne => ?_, fun heq => ?_, ?_⟩
  · simp [XNNExecutor.initRuntime, hne]
  · simp [XNNExecutor.initRuntime, heq]
  · simpa [XNNExecutor.destroy, freshExecutor] using
      runInitSeq_deletes hs freshExecutor

/-- C10 witness: a failing profiler aborts `initialize` on `exeW`; a
succeeding one replaces the owned handle; and the handles {1, 2, 3}
initialized in sequence on a fresh executor are each released exactly
once. -/
theorem C10_initialize_fatal_and_ownership_witness :
    ((exeW.initRuntime 5 Error.Internal).1 = none)
    ∧ ((exeW.initRuntime 5 Error.Ok).1
        = some { exeW with runtime_ := some 5 })
    ∧ ((runInitSeq freshExecutor [1, 2, 3]).2
        ++ ((runInitSeq freshExecutor [1, 2, 3]).1).destroy = [1, 2, 3]) :=
  ⟨(C10_initialize_fatal_and_ownership exeW 5 Error.Internal [1, 2, 3]).1
      (by decide),
   (C10_initialize_fatal_and_ownership exeW 5 Error.Ok [1, 2, 3]).2.1 rfl,
   (C10_initialize_fatal_and_ownership exeW 5 Error.Ok [1, 2, 3]).2.2⟩

end ETProof
